import Mathlib

/-!
Verification development for the a3-preset-parser repository.

The repository parses Arma 3 / DayZ launcher preset HTML exports into a
typed `Preset` model, renders presets as text, and diffs two presets.
The HTML/CSS-selector engine is an external collaborator library: we model
a document by the results the selectors would produce (head marker
contents, the mod and DLC rows with their name / link / origin cells and
serialized inner HTML), and embed the decision logic of the library crate
(src/lib.rs) and the comparison example (examples/a3_preset_compare.rs)
faithfully over that model.  Machine integers (u64) are modelled as Nat
with the 2^64 bound enforced where the source enforces it (integer
parsing).
-/

namespace A3

/-! ## Link decoder (src/lib.rs, get_steam_link_steam_workshop_id /
get_steam_link_steam_app_id / strip_url_protocol) -/

/-- Rust's char::is_whitespace: the Unicode White_Space property. -/
def rustIsWhitespace (c : Char) : Bool :=
  c.toNat = 0x09 || c.toNat = 0x0A || c.toNat = 0x0B || c.toNat = 0x0C ||
  c.toNat = 0x0D || c.toNat = 0x20 || c.toNat = 0x85 || c.toNat = 0xA0 ||
  c.toNat = 0x1680 || (0x2000 ≤ c.toNat && c.toNat ≤ 0x200A) ||
  c.toNat = 0x2028 || c.toNat = 0x2029 || c.toNat = 0x202F ||
  c.toNat = 0x205F || c.toNat = 0x3000

/-- Rust's str::trim on a character list: drop whitespace from both ends. -/
def trimChars (cs : List Char) : List Char :=
  ((cs.dropWhile rustIsWhitespace).reverse.dropWhile rustIsWhitespace).reverse

/-- Rust's str::strip with a pattern: `chopFront pat cs` returns the rest of
`cs` after the leading occurrence of `pat`, or none when `cs` does not start
with `pat`. -/
def chopFront : List Char → List Char → Option (List Char)
  | [], s => some s
  | _ :: _, [] => none
  | p :: ps, c :: cs => if c = p then chopFront ps cs else none

/-- Rust's Option::or. -/
def optionOr {α : Type} (a b : Option α) : Option α :=
  match a with
  | some x => some x
  | none => b

def STEAM_WORKSHOP_LINK : String := "steamcommunity.com/sharedfiles/filedetails/?id="

def STEAM_APP_LINK : String := "store.steampowered.com/app/"

/-- strip_url_protocol from src/lib.rs: trim, then strip `https://` or
`http://`. -/
def strip_url_protocol (cs : List Char) : Option (List Char) :=
  let cs := trimChars cs
  optionOr (chopFront "https://".data cs) (chopFront "http://".data cs)

def digitVal (c : Char) : Option Nat :=
  if c.isDigit then some (c.toNat - 48) else none

/-- Accumulating base-10 digit parse; fails at the first non-digit. -/
def digitsAcc : Nat → List Char → Option Nat
  | acc, [] => some acc
  | acc, c :: cs =>
    match digitVal c with
    | some d => digitsAcc (acc * 10 + d) cs
    | none => none

/-- Rust's `str::parse::<u64>`: an optional leading `+`, then at least one
base-10 digit, and the value must fit in 64 bits. -/
def parseU64 (cs : List Char) : Option Nat :=
  let ds := match cs with
    | c :: rest => if c = '+' then rest else c :: rest
    | [] => []
  match ds with
  | [] => none
  | _ :: _ =>
    match digitsAcc 0 ds with
    | some n => if n < 2 ^ 64 then some n else none
    | none => none

/-- get_steam_link_steam_workshop_id from src/lib.rs. -/
def get_steam_link_steam_workshop_id (link : String) : Option Nat :=
  (strip_url_protocol link.data).bind fun rest =>
  (chopFront STEAM_WORKSHOP_LINK.data rest).bind fun idPart =>
  parseU64 idPart

/-- get_steam_link_steam_app_id from src/lib.rs. -/
def get_steam_link_steam_app_id (link : String) : Option Nat :=
  (strip_url_protocol link.data).bind fun rest =>
  (chopFront STEAM_APP_LINK.data rest).bind fun idPart =>
  parseU64 idPart

/-! ## Data model (src/lib.rs) -/

inductive Game where
  | Arma
  | DayZ
deriving DecidableEq

/-- Display impl for Game. -/
def Game.display : Game → String
  | .Arma => "Arma 3"
  | .DayZ => "DayZ"

structure PresetSteamMod where
  display_name : String
  id : Nat
deriving DecidableEq

structure PresetLocalMod where
  display_name : String
deriving DecidableEq

structure PresetDlc where
  display_name : String
  id : Nat
deriving DecidableEq

structure Preset where
  game : Game
  preset_name : Option String
  steam_mods : List PresetSteamMod
  local_mods : List PresetLocalMod
  dlcs : List PresetDlc
deriving DecidableEq

/-- Display impl for PresetSteamMod. -/
def PresetSteamMod.display (m : PresetSteamMod) : String :=
  "https://" ++ STEAM_WORKSHOP_LINK ++ Nat.repr m.id ++ ": " ++ m.display_name

/-- Display impl for PresetLocalMod. -/
def PresetLocalMod.display (m : PresetLocalMod) : String :=
  m.display_name

/-- Display impl for PresetDlc. -/
def PresetDlc.display (m : PresetDlc) : String :=
  "https://" ++ STEAM_APP_LINK ++ Nat.repr m.id ++ ": " ++ m.display_name

/-- The parser's error enum from src/lib.rs, payloads included. -/
inductive Error where
  | SelectorFailedPresetType (html : String)
  | InvalidPresetTypeValue (value : String)
  | SelectorFailedItemOrigin (html : String)
  | InvalidItemOriginValue (value : String)
  | SelectorFailedItemName (html : String)
  | SelectorFailedItemLink (html : String)
  | InvalidItemLinkSteamWorkshop (link : String)
  | InvalidItemLinkSteamApp (link : String)
deriving DecidableEq

/-! ## Document model

A `Row` records what the item-level selectors yield on one `tr` element of
the mod or DLC table: the first text node of its DisplayName cell, the href
of its Link anchor, the class of its origin span, and the serialized inner
HTML used in error payloads.  A `Doc` records what the document-level
selectors yield: the content attributes of the arma:/dayz: head meta
markers (none when the marker is absent), the mod and DLC rows in document
order, and the document's serialized HTML. -/

structure Row where
  itemName : Option String
  itemLink : Option String
  itemOrigin : Option String
  innerHtml : String
deriving DecidableEq

structure Doc where
  armaTypeContent : Option String
  armaNameContent : Option String
  dayzTypeContent : Option String
  dayzNameContent : Option String
  modRows : List Row
  dlcRows : List Row
  htmlText : String
deriving DecidableEq

/-! ## Parser (src/lib.rs, Preset::from_str) -/

/-- The accepted game-type marker vocabulary: `["list", "preset"].contains`. -/
def acceptedTypeValue (s : String) : Bool :=
  s = "list" || s = "preset"

/-- One arm of select_preset_type's array map: a missing marker is a
selector failure carrying the document HTML; a present marker must carry an
accepted value. -/
def presetTypeBranch (content : Option String) (game : Game) (docHtml : String) :
    Except Error Game :=
  match content with
  | none => .error (.SelectorFailedPresetType docHtml)
  | some c => if acceptedTypeValue c then .ok game else .error (.InvalidPresetTypeValue c)

/-- Rust's Result::or: the first result when it is Ok, otherwise the second. -/
def resultOr {ε α : Type} (a b : Except ε α) : Except ε α :=
  match a with
  | .ok x => .ok x
  | .error _ => b

/-- select_preset_type from src/lib.rs: Result::or of the Arma branch and
the DayZ branch. -/
def select_preset_type (doc : Doc) : Except Error Game :=
  resultOr (presetTypeBranch doc.armaTypeContent Game.Arma doc.htmlText)
           (presetTypeBranch doc.dayzTypeContent Game.DayZ doc.htmlText)

/-- select_item_name from src/lib.rs. -/
def select_item_name (r : Row) : Except Error String :=
  match r.itemName with
  | some s => .ok s
  | none => .error (.SelectorFailedItemName r.innerHtml)

/-- select_item_link from src/lib.rs. -/
def select_item_link (r : Row) : Except Error String :=
  match r.itemLink with
  | some s => .ok s
  | none => .error (.SelectorFailedItemLink r.innerHtml)

/-- select_item_origin from src/lib.rs. -/
def select_item_origin (r : Row) : Except Error String :=
  match r.itemOrigin with
  | some s => .ok s
  | none => .error (.SelectorFailedItemOrigin r.innerHtml)

/-- The mod-row loop of Preset::from_str: name, then origin, then dispatch
on `from-local` / `from-steam` (the latter requiring a link that decodes to
a workshop id); any other origin value is fatal.  Accumulates the Steam and
local sequences in document order. -/
def parse_mod_rows : List Row → Except Error (List PresetSteamMod × List PresetLocalMod)
  | [] => .ok ([], [])
  | r :: rs =>
    match select_item_name r with
    | .error e => .error e
    | .ok display_name =>
      match select_item_origin r with
      | .error e => .error e
      | .ok origin =>
        if origin = "from-local" then
          match parse_mod_rows rs with
          | .error e => .error e
          | .ok (steam, locals) => .ok (steam, ⟨display_name⟩ :: locals)
        else if origin = "from-steam" then
          match select_item_link r with
          | .error e => .error e
          | .ok link =>
            match get_steam_link_steam_workshop_id link with
            | none => .error (.InvalidItemLinkSteamWorkshop link)
            | some id =>
              match parse_mod_rows rs with
              | .error e => .error e
              | .ok (steam, locals) => .ok (⟨display_name, id⟩ :: steam, locals)
        else .error (.InvalidItemOriginValue origin)

/-- The DLC-row loop of Preset::from_str: name, then link, decoded as a
store app id. -/
def parse_dlc_rows : List Row → Except Error (List PresetDlc)
  | [] => .ok []
  | r :: rs =>
    match select_item_name r with
    | .error e => .error e
    | .ok display_name =>
      match select_item_link r with
      | .error e => .error e
      | .ok link =>
        match get_steam_link_steam_app_id link with
        | none => .error (.InvalidItemLinkSteamApp link)
        | some id =>
          match parse_dlc_rows rs with
          | .error e => .error e
          | .ok dlcs => .ok (⟨display_name, id⟩ :: dlcs)

/-- Preset::from_str from src/lib.rs over the document model: select the
game, pick the matching preset-name marker, parse the mod rows and the DLC
rows, and assemble the Preset. -/
def Preset.from_str (doc : Doc) : Except Error Preset :=
  match select_preset_type doc with
  | .error e => .error e
  | .ok game =>
    match parse_mod_rows doc.modRows with
    | .error e => .error e
    | .ok (steam_mods, local_mods) =>
      match parse_dlc_rows doc.dlcRows with
      | .error e => .error e
      | .ok dlcs =>
        .ok ⟨game,
          (match game with
            | .Arma => doc.armaNameContent
            | .DayZ => doc.dayzNameContent),
          steam_mods, local_mods, dlcs⟩

/-! ## Rendering (src/lib.rs, impl Display for Preset) -/

/-- String.join of a list of strings (sequential writeln! appends). -/
def joinAll (l : List String) : String :=
  match l with
  | [] => ""
  | s :: rest => s ++ joinAll rest

/-- Display impl for Preset: a header line naming the game (with the preset
name when present), then a Steam line per Steam mod, a Local line per local
mod, and a DLC line per DLC, each via that item's Display impl. -/
def Preset.display (p : Preset) : String :=
  (match p.preset_name with
    | some preset_name => p.game.display ++ " Preset: " ++ preset_name ++ "\n"
    | none => p.game.display ++ " Preset\n")
  ++ joinAll (p.steam_mods.map fun m => "Steam: " ++ m.display ++ "\n")
  ++ joinAll (p.local_mods.map fun m => "Local: " ++ m.display ++ "\n")
  ++ joinAll (p.dlcs.map fun m => "DLC: " ++ m.display ++ "\n")

/-! ## Comparator (examples/a3_preset_compare.rs) -/

/-- The HashSet of Steam-mod ids collected from a preset. -/
def steamIds (p : Preset) : Finset Nat :=
  (p.steam_mods.map PresetSteamMod.id).toFinset

/-- The HashSet of DLC ids collected from a preset. -/
def dlcIds (p : Preset) : Finset Nat :=
  (p.dlcs.map PresetDlc.id).toFinset

/-- fmt_list from the compare example: the header line is printed before the
first item only, each item is printed as a dashed line, and a closing blank
line is printed only when the header was printed.  Embedded as the same
fold over a (text so far, printed_header) state. -/
def fmt_list (header : String) (items : List String) : String :=
  let st := items.foldl
    (fun (st : String × Bool) item =>
      ((if st.2 then st.1 else st.1 ++ header ++ "\n") ++ "- " ++ item ++ "\n", true))
    ("", false)
  if st.2 then st.1 ++ "\n" else st.1

/-- Steam mods of preset 1 whose id is not among preset 2's Steam-mod ids. -/
def steamOnly1 (p1 p2 : Preset) : List PresetSteamMod :=
  p1.steam_mods.filter fun m => decide (m.id ∉ steamIds p2)

/-- Steam mods of preset 2 whose id is not among preset 1's Steam-mod ids. -/
def steamOnly2 (p1 p2 : Preset) : List PresetSteamMod :=
  p2.steam_mods.filter fun m => decide (m.id ∉ steamIds p1)

/-- Steam mods of preset 1 whose id is among preset 2's Steam-mod ids. -/
def steamBoth (p1 p2 : Preset) : List PresetSteamMod :=
  p1.steam_mods.filter fun m => decide (m.id ∈ steamIds p2)

/-- DLCs of preset 1 whose id is not among preset 2's DLC ids. -/
def dlcOnly1 (p1 p2 : Preset) : List PresetDlc :=
  p1.dlcs.filter fun m => decide (m.id ∉ dlcIds p2)

/-- DLCs of preset 2 whose id is not among preset 1's DLC ids. -/
def dlcOnly2 (p1 p2 : Preset) : List PresetDlc :=
  p2.dlcs.filter fun m => decide (m.id ∉ dlcIds p1)

/-- DLCs of preset 1 whose id is among preset 2's DLC ids. -/
def dlcBoth (p1 p2 : Preset) : List PresetDlc :=
  p1.dlcs.filter fun m => decide (m.id ∈ dlcIds p2)

/-- PresetsCompare's Display impl (examples/a3_preset_compare.rs): the
Steam-mod section (no-mods line / same-mods line / three fmt_list blocks),
then the DLC section likewise, then one unconditional fmt_list of local
mods per preset. -/
def PresetsCompare.fmt (p1 : Preset) (n1 : String) (p2 : Preset) (n2 : String) : String :=
  (if steamIds p1 = ∅ ∧ steamIds p2 = ∅ then
    "'" ++ n1 ++ "' and '" ++ n2 ++ "' have no Steam Mods\n\n"
  else if steamIds p1 = steamIds p2 then
    "'" ++ n1 ++ "' and '" ++ n2 ++ "' have the same Steam Mods\n\n"
  else
    fmt_list ("Steam Mods only in '" ++ n1 ++ "'")
      ((steamOnly1 p1 p2).map PresetSteamMod.display)
    ++ fmt_list ("Steam Mods only in '" ++ n2 ++ "'")
      ((steamOnly2 p1 p2).map PresetSteamMod.display)
    ++ fmt_list ("Steam Mods in '" ++ n1 ++ "' and '" ++ n2 ++ "'")
      ((steamBoth p1 p2).map PresetSteamMod.display))
  ++ (if dlcIds p1 = ∅ ∧ dlcIds p2 = ∅ then
    "'" ++ n1 ++ "' and '" ++ n2 ++ "' have no DLCs\n\n"
  else if dlcIds p1 = dlcIds p2 then
    "'" ++ n1 ++ "' and '" ++ n2 ++ "' have the same DLCs\n\n"
  else
    fmt_list ("DLCs only in '" ++ n1 ++ "'")
      ((dlcOnly1 p1 p2).map PresetDlc.display)
    ++ fmt_list ("DLCs only in '" ++ n2 ++ "'")
      ((dlcOnly2 p1 p2).map PresetDlc.display)
    ++ fmt_list ("DLCs in '" ++ n1 ++ "' and '" ++ n2 ++ "'")
      ((dlcBoth p1 p2).map PresetDlc.display))
  ++ fmt_list ("Local mods in '" ++ n1 ++ "'")
    (p1.local_mods.map PresetLocalMod.display)
  ++ fmt_list ("Local mods in '" ++ n2 ++ "'")
    (p2.local_mods.map PresetLocalMod.display)

/-- The dispatch of the compare example's run(): different games produce the
single not-same-game line; identical field sequences produce the
identical-contents line; otherwise the PresetsCompare report. -/
def compare_run_out (p1 : Preset) (n1 : String) (p2 : Preset) (n2 : String) : String :=
  if p1.game = p2.game then
    if p1.steam_mods = p2.steam_mods ∧ p1.local_mods = p2.local_mods ∧ p1.dlcs = p2.dlcs then
      "Presets '" ++ n1 ++ "' and '" ++ n2 ++ "' have identical contents"
    else
      PresetsCompare.fmt p1 n1 p2 n2
  else
    "Presets '" ++ n1 ++ "' and '" ++ n2 ++ "' do not belong to the same game"

/-! ## Helper lemmas: link decoding -/

theorem chopFront_self_append (p rest : List Char) : chopFront p (p ++ rest) = some rest := by
  induction p with
  | nil => rfl
  | cons c cs ih => simpa [chopFront] using ih

theorem digitsAcc_eq_none (cs : List Char) (c : Char) (hc : c ∈ cs) (hd : c.isDigit = false) :
    ∀ acc, digitsAcc acc cs = none := by
  induction cs with
  | nil => cases hc
  | cons x xs ih =>
    intro acc
    rcases List.mem_cons.mp hc with h | h
    · subst h
      simp [digitsAcc, digitVal, hd]
    · cases hx : digitVal x with
      | none => simp [digitsAcc, hx]
      | some d =>
        simp only [digitsAcc, hx]
        exact ih h _

theorem parseU64_none_of_nondigit (d suffix : List Char) (c : Char)
    (hne : d ≠ []) (hc : c ∈ suffix) (hd : c.isDigit = false) :
    parseU64 (d ++ suffix) = none := by
  cases d with
  | nil => exact absurd rfl hne
  | cons x d' =>
    by_cases hx : x = '+'
    · subst hx
      cases hds : d' ++ suffix with
      | nil =>
        rcases List.append_eq_nil.mp hds with ⟨-, h2⟩
        subst h2; cases hc
      | cons y ys =>
        have hnone : digitsAcc 0 (d' ++ suffix) = none :=
          digitsAcc_eq_none _ c (List.mem_append_right _ hc) hd 0
        rw [hds] at hnone
        simp [parseU64, hds, hnone]
    · have hnone : digitsAcc 0 (x :: (d' ++ suffix)) = none :=
        digitsAcc_eq_none _ c (List.mem_cons_of_mem _ (List.mem_append_right _ hc)) hd 0
      simp [parseU64, hx, hnone]

theorem dropWhile_eq_self_of_head (p : Char → Bool) (l : List Char)
    (h : ∀ c, l.head? = some c → p c = false) : l.dropWhile p = l := by
  cases l with
  | nil => rfl
  | cons x xs => simp [List.dropWhile_cons, h x rfl]

theorem trimChars_eq_self (l : List Char)
    (h1 : ∀ c, l.head? = some c → rustIsWhitespace c = false)
    (h2 : ∀ c, l.getLast? = some c → rustIsWhitespace c = false) :
    trimChars l = l := by
  unfold trimChars
  rw [dropWhile_eq_self_of_head _ _ h1]
  rw [dropWhile_eq_self_of_head _ _ (fun c hc => h2 c (by rwa [List.head?_reverse] at hc))]
  exact l.reverse_reverse

theorem decode_workshop_append (rest : List Char)
    (h : ∀ c, rest.getLast? = some c → rustIsWhitespace c = false) :
    get_steam_link_steam_workshop_id
      (String.mk ("https://".data ++ STEAM_WORKSHOP_LINK.data ++ rest)) = parseU64 rest := by
  have htrim : trimChars ("https://".data ++ STEAM_WORKSHOP_LINK.data ++ rest)
      = "https://".data ++ STEAM_WORKSHOP_LINK.data ++ rest := by
    apply trimChars_eq_self
    · intro c hc
      have hh : ("https://".data ++ STEAM_WORKSHOP_LINK.data ++ rest).head? = some 'h' := rfl
      rw [hh] at hc
      cases hc
      decide
    · intro c hc
      cases rest with
      | nil =>
        have hl : (("https://".data ++ STEAM_WORKSHOP_LINK.data ++ ([] : List Char)).getLast?)
            = some '=' := by decide
        rw [hl] at hc
        cases hc
        decide
      | cons y ys =>
        have hne : (y :: ys) ≠ ([] : List Char) := by simp
        rw [List.getLast?_append, List.getLast?_eq_getLast _ hne, Option.or_some] at hc
        exact h c (by rw [List.getLast?_eq_getLast _ hne]; exact hc)
  unfold get_steam_link_steam_workshop_id strip_url_protocol
  show (optionOr (chopFront "https://".data (trimChars _)) _).bind _ = _
  rw [htrim, List.append_assoc, chopFront_self_append]
  simp [optionOr, chopFront_self_append]

theorem decode_app_append (rest : List Char)
    (h : ∀ c, rest.getLast? = some c → rustIsWhitespace c = false) :
    get_steam_link_steam_app_id
      (String.mk ("http://".data ++ STEAM_APP_LINK.data ++ rest)) = parseU64 rest := by
  have htrim : trimChars ("http://".data ++ STEAM_APP_LINK.data ++ rest)
      = "http://".data ++ STEAM_APP_LINK.data ++ rest := by
    apply trimChars_eq_self
    · intro c hc
      have hh : ("http://".data ++ STEAM_APP_LINK.data ++ rest).head? = some 'h' := rfl
      rw [hh] at hc
      cases hc
      decide
    · intro c hc
      cases rest with
      | nil =>
        have hl : (("http://".data ++ STEAM_APP_LINK.data ++ ([] : List Char)).getLast?)
            = some '/' := by decide
        rw [hl] at hc
        cases hc
        decide
      | cons y ys =>
        have hne : (y :: ys) ≠ ([] : List Char) := by simp
        rw [List.getLast?_append, List.getLast?_eq_getLast _ hne, Option.or_some] at hc
        exact h c (by rw [List.getLast?_eq_getLast _ hne]; exact hc)
  unfold get_steam_link_steam_app_id strip_url_protocol
  show (optionOr (chopFront "https://".data (trimChars _)) _).bind _ = _
  rw [htrim, List.append_assoc]
  have hmiss : chopFront "https://".data ("http://".data ++ (STEAM_APP_LINK.data ++ rest))
      = none := rfl
  rw [hmiss]
  show (chopFront "http://".data ("http://".data ++ (STEAM_APP_LINK.data ++ rest))).bind _ = _
  rw [chopFront_self_append]
  show (chopFront STEAM_APP_LINK.data (STEAM_APP_LINK.data ++ rest)).bind parseU64 = parseU64 rest
  rw [chopFront_self_append]
  rfl

/-! ## Claim C2 -/

/-- C2, counterexample to the claim as stated: a trailing space is a
non-digit character after the id, for which the claim announces None, but
the decoder trims whitespace from both ends before matching, so it returns
some 123. -/
theorem C2_counterexample :
    get_steam_link_steam_workshop_id
      "https://steamcommunity.com/sharedfiles/filedetails/?id=123 " = some 123 ∧
    get_steam_link_steam_workshop_id
      "https://steamcommunity.com/sharedfiles/filedetails/?id=123 " ≠ none := by
  exact ⟨rfl, by decide⟩

/-- C2 (amended): the decoders trim whitespace, strip an https:// or
http:// scheme (none otherwise), require the fixed host+path text, and
parse the remainder as a base-10 u64.  Concretely the three quoted
examples hold; on any input built as scheme ++ fixed text ++ rest whose
last character is not whitespace, the workshop (resp. app) decoder returns
exactly the u64 parse of rest, so trailing non-digit characters after the
id yield none whenever the trailing run is not pure whitespace (trailing
whitespace is removed by the trim); and inputs whose trimmed text starts
with neither scheme yield none. -/
theorem C2_link_decoders :
    get_steam_link_steam_workshop_id
      "https://steamcommunity.com/sharedfiles/filedetails/?id=123" = some 123 ∧
    get_steam_link_steam_workshop_id
      "ftp://steamcommunity.com/sharedfiles/filedetails/?id=123" = none ∧
    get_steam_link_steam_app_id "http://store.steampowered.com/app/456" = some 456 ∧
    (∀ rest : List Char, (∀ c, rest.getLast? = some c → rustIsWhitespace c = false) →
      get_steam_link_steam_workshop_id
        (String.mk ("https://".data ++ STEAM_WORKSHOP_LINK.data ++ rest)) = parseU64 rest) ∧
    (∀ rest : List Char, (∀ c, rest.getLast? = some c → rustIsWhitespace c = false) →
      get_steam_link_steam_app_id
        (String.mk ("http://".data ++ STEAM_APP_LINK.data ++ rest)) = parseU64 rest) ∧
    (∀ (d : List Char) (c : Char) (t : List Char), d ≠ [] → c.isDigit = false →
      (∀ x, (d ++ c :: t).getLast? = some x → rustIsWhitespace x = false) →
      get_steam_link_steam_workshop_id
        (String.mk ("https://".data ++ STEAM_WORKSHOP_LINK.data ++ (d ++ c :: t))) = none) ∧
    (∀ cs : List Char,
      chopFront "https://".data (trimChars cs) = none →
      chopFront "http://".data (trimChars cs) = none →
      get_steam_link_steam_workshop_id (String.mk cs) = none) := by
  refine ⟨rfl, rfl, rfl, decode_workshop_append, decode_app_append, ?_, ?_⟩
  · intro d c t hd hc hx
    rw [decode_workshop_append _ hx]
    exact parseU64_none_of_nondigit d (c :: t) c hd (List.mem_cons_self c t) hc
  · intro cs h1 h2
    show (optionOr (chopFront "https://".data (trimChars cs))
      (chopFront "http://".data (trimChars cs))).bind _ = _
    rw [h1, h2]
    rfl

/-- C2, witness: the amended theorem applied at the concrete input
https scheme ++ workshop text ++ "123x". -/
theorem C2_link_decoders_witness :
    get_steam_link_steam_workshop_id
      (String.mk ("https://".data ++ STEAM_WORKSHOP_LINK.data
        ++ (['1', '2', '3'] ++ 'x' :: []))) = none :=
  C2_link_decoders.2.2.2.2.2.1 ['1', '2', '3'] 'x' []
    (by decide) (by decide) (by intro x hx; cases hx; decide)

/-! ## Helper lemmas: game-type selection and from_str plumbing -/

theorem from_str_error_of_select (doc : Doc) (e : Error)
    (h : select_preset_type doc = .error e) : Preset.from_str doc = .error e := by
  unfold Preset.from_str
  rw [h]

theorem select_preset_type_dayz_invalid (doc : Doc) (v : String)
    (hdayz : doc.dayzTypeContent = some v) (hv : acceptedTypeValue v = false)
    (harma : ∀ w, doc.armaTypeContent = some w → acceptedTypeValue w = false) :
    select_preset_type doc = .error (.InvalidPresetTypeValue v) := by
  obtain ⟨e, he⟩ : ∃ e, presetTypeBranch doc.armaTypeContent Game.Arma doc.htmlText
      = .error e := by
    cases haa : doc.armaTypeContent with
    | none => exact ⟨_, rfl⟩
    | some w =>
      exact ⟨.InvalidPresetTypeValue w, by simp [presetTypeBranch, harma w haa]⟩
  unfold select_preset_type
  rw [he]
  show presetTypeBranch doc.dayzTypeContent Game.DayZ doc.htmlText = _
  rw [hdayz]
  simp [presetTypeBranch, hv]

theorem from_str_ok_parts (doc : Doc) (p : Preset) (h : Preset.from_str doc = .ok p) :
    select_preset_type doc = .ok p.game ∧
    parse_mod_rows doc.modRows = .ok (p.steam_mods, p.local_mods) ∧
    parse_dlc_rows doc.dlcRows = .ok p.dlcs := by
  unfold Preset.from_str at h
  cases hsel : select_preset_type doc with
  | error e => rw [hsel] at h; exact absurd h (by simp)
  | ok g =>
    rw [hsel] at h
    cases hm : parse_mod_rows doc.modRows with
    | error e => rw [hm] at h; exact absurd h (by simp)
    | ok sl =>
      obtain ⟨s, l⟩ := sl
      rw [hm] at h
      cases hd : parse_dlc_rows doc.dlcRows with
      | error e => rw [hd] at h; exact absurd h (by simp)
      | ok ds =>
        rw [hd] at h
        injection h with h
        refine ⟨?_, ?_, ?_⟩
        · rw [← h]
        · rw [← h]
        · rw [← h]

/-! ## Claim C1 -/

def c1Doc : Doc :=
  ⟨some "foo", none, none, none, [], [], "<html>c1</html>"⟩

/-- C1, counterexample to the claim as stated: a document whose only
game-type marker is an Arma marker with the unaccepted value "foo".  The
claim announces the invalid-preset-type-value error carrying "foo"
regardless of which marker offends, but Result::or returns the DayZ
branch's error when the Arma branch fails, so parsing fails with the
selector-failed kind instead. -/
theorem C1_counterexample :
    c1Doc.armaTypeContent = some "foo" ∧
    acceptedTypeValue "foo" = false ∧
    Preset.from_str c1Doc = .error (.SelectorFailedPresetType "<html>c1</html>") ∧
    Preset.from_str c1Doc ≠ .error (.InvalidPresetTypeValue "foo") := by
  refine ⟨rfl, rfl, rfl, fun hcontra => ?_⟩
  have h1 : Preset.from_str c1Doc
      = .error (.SelectorFailedPresetType "<html>c1</html>") := rfl
  rw [h1] at hcontra
  exact Error.noConfusion (Except.error.inj hcontra)

/-- C1 (amended): the invalid-preset-type-value error carrying the raw
marker value is produced exactly from the DayZ branch: when the DayZ
marker carries a value outside the vocabulary and the Arma branch does not
succeed (its marker absent or also invalid), parsing fails with that
error; when the offending marker is the Arma one and the DayZ marker is
absent, parsing fails with the selector-failed kind instead. -/
theorem C1_invalid_preset_type :
    (∀ (doc : Doc) (v : String),
      doc.dayzTypeContent = some v → acceptedTypeValue v = false →
      (∀ w, doc.armaTypeContent = some w → acceptedTypeValue w = false) →
      Preset.from_str doc = .error (.InvalidPresetTypeValue v)) ∧
    (∀ (doc : Doc) (w : String),
      doc.armaTypeContent = some w → acceptedTypeValue w = false →
      doc.dayzTypeContent = none →
      Preset.from_str doc = .error (.SelectorFailedPresetType doc.htmlText)) := by
  constructor
  · intro doc v hd hv harma
    exact from_str_error_of_select _ _ (select_preset_type_dayz_invalid doc v hd hv harma)
  · intro doc w ha hw hd
    apply from_str_error_of_select
    unfold select_preset_type
    rw [ha, hd]
    simp [presetTypeBranch, hw, resultOr]

def c1WDoc : Doc :=
  ⟨none, none, some "bogus", none, [], [], "<html>c1w</html>"⟩

/-- C1, witness: the amended theorem applied to a document whose DayZ
marker carries the unaccepted value "bogus" and whose Arma marker is
absent. -/
theorem C1_invalid_preset_type_witness :
    Preset.from_str c1WDoc = .error (.InvalidPresetTypeValue "bogus") :=
  C1_invalid_preset_type.1 c1WDoc "bogus" rfl (by decide)
    (fun w hw => Option.noConfusion hw)

/-! ## Claim C4 -/

/-- C4: a document with neither recognized game-type marker fails with the
preset-type-selector-failed kind carrying the document HTML. -/
theorem C4_selector_failed (doc : Doc)
    (ha : doc.armaTypeContent = none) (hd : doc.dayzTypeContent = none) :
    Preset.from_str doc = .error (.SelectorFailedPresetType doc.htmlText) := by
  apply from_str_error_of_select
  unfold select_preset_type
  rw [ha, hd]
  rfl

def c4Doc : Doc :=
  ⟨none, none, none, none, [], [], "<html>c4</html>"⟩

/-- C4, witness: the theorem applied to a concrete marker-less document. -/
theorem C4_selector_failed_witness :
    Preset.from_str c4Doc = .error (.SelectorFailedPresetType "<html>c4</html>") :=
  C4_selector_failed c4Doc rfl rfl

/-! ## Claim C10 -/

def c10Doc : Doc :=
  ⟨some "preset", none, some "list", none,
    [⟨none, none, none, "<td>bad</td>"⟩], [], "<html>c10</html>"⟩

/-- C10, counterexample to the claim as stated: both markers present with
accepted values, yet parsing fails, because a mod row is missing its
display-name cell.  Marker precedence alone does not make the whole parse
succeed. -/
theorem C10_counterexample :
    c10Doc.armaTypeContent = some "preset" ∧ acceptedTypeValue "preset" = true ∧
    c10Doc.dayzTypeContent = some "list" ∧ acceptedTypeValue "list" = true ∧
    Preset.from_str c10Doc = .error (.SelectorFailedItemName "<td>bad</td>") := by
  exact ⟨rfl, rfl, rfl, rfl, rfl⟩

/-- C10 (amended): when both markers are present with accepted values, the
game-type selection succeeds and returns Arma (the Arma branch takes
precedence), and any successful parse of such a document yields a preset
whose game is Arma; dually, a successful parse can only return DayZ when
the Arma marker is absent or carries a non-accepted value. -/
theorem C10_arma_precedence :
    (∀ (doc : Doc) (v1 v2 : String),
      doc.armaTypeContent = some v1 → acceptedTypeValue v1 = true →
      doc.dayzTypeContent = some v2 → acceptedTypeValue v2 = true →
      select_preset_type doc = .ok Game.Arma ∧
      ∀ p, Preset.from_str doc = .ok p → p.game = Game.Arma) ∧
    (∀ (doc : Doc) (p : Preset),
      Preset.from_str doc = .ok p → p.game = Game.DayZ →
      ∀ w, doc.armaTypeContent = some w → acceptedTypeValue w = false) := by
  constructor
  · intro doc v1 v2 ha hv1 _ _
    have hsel : select_preset_type doc = .ok Game.Arma := by
      unfold select_preset_type
      rw [ha]
      simp [presetTypeBranch, hv1, resultOr]
    refine ⟨hsel, fun p hp => ?_⟩
    have := (from_str_ok_parts doc p hp).1
    rw [hsel] at this
    injection this with h
    exact h.symm
  · intro doc p hp hgame w hw
    have hsel := (from_str_ok_parts doc p hp).1
    rw [hgame] at hsel
    cases hacc : acceptedTypeValue w with
    | false => rfl
    | true =>
      exfalso
      unfold select_preset_type at hsel
      rw [hw] at hsel
      simp [presetTypeBranch, hacc, resultOr] at hsel

def c10WDoc : Doc :=
  ⟨some "preset", none, some "list", none, [], [], "<html>c10w</html>"⟩

/-- C10, witness: the amended theorem applied to a document carrying both
markers with accepted values. -/
theorem C10_arma_precedence_witness :
    select_preset_type c10WDoc = .ok Game.Arma :=
  (C10_arma_precedence.1 c10WDoc "preset" "list" rfl rfl rfl rfl).1

/-! ## Helper lemmas: the mod-row loop -/

/-- The local-mod entries a row list contributes per the claim: one entry
per from-local row carrying that row's display name, in document order,
duplicates preserved. -/
def localExpected (rows : List Row) : List PresetLocalMod :=
  rows.filterMap fun r =>
    if r.itemOrigin = some "from-local" then r.itemName.map (fun n => ⟨n⟩) else none

/-- The Steam-mod entries a row list contributes per the claim: one entry
per from-steam row carrying that row's display name and decoded workshop
id, in document order, duplicates preserved. -/
def steamExpected (rows : List Row) : List PresetSteamMod :=
  rows.filterMap fun r =>
    if r.itemOrigin = some "from-steam" then
      match r.itemName, r.itemLink with
      | some n, some link => (get_steam_link_steam_workshop_id link).map fun id => ⟨n, id⟩
      | _, _ => none
    else none

theorem parse_mod_rows_ok (rows : List Row) (steam : List PresetSteamMod)
    (locals : List PresetLocalMod) (h : parse_mod_rows rows = .ok (steam, locals)) :
    locals = localExpected rows ∧ steam = steamExpected rows ∧
    ∀ r ∈ rows,
      (r.itemOrigin = some "from-local" ∧ r.itemName.isSome) ∨
      (r.itemOrigin = some "from-steam" ∧ ∃ link id,
        r.itemLink = some link ∧ get_steam_link_steam_workshop_id link = some id) := by
  induction rows generalizing steam locals with
  | nil =>
    simp only [parse_mod_rows] at h
    injection h with h
    injection h with h1 h2
    subst h1; subst h2
    simp [localExpected, steamExpected]
  | cons r rs ih =>
    simp only [parse_mod_rows] at h
    cases hname : r.itemName with
    | none => simp [select_item_name, hname] at h
    | some n =>
      simp only [select_item_name, hname] at h
      cases horig : r.itemOrigin with
      | none => simp [select_item_origin, horig] at h
      | some origin =>
        simp only [select_item_origin, horig] at h
        by_cases hl : origin = "from-local"
        · simp only [hl, if_pos rfl] at h
          cases hrec : parse_mod_rows rs with
          | error e => rw [hrec] at h; cases h
          | ok sl =>
            obtain ⟨s', l'⟩ := sl
            rw [hrec] at h
            injection h with h
            injection h with h1 h2
            subst h1; subst h2
            obtain ⟨ih1, ih2, ih3⟩ := ih s' l' hrec
            refine ⟨?_, ?_, ?_⟩
            · simp [localExpected, horig, hname, hl, List.filterMap_cons]
              exact ih1
            · simp [steamExpected, horig, hl, List.filterMap_cons]
              exact ih2
            · intro x hx
              rcases List.mem_cons.mp hx with hx | hx
              · subst hx
                exact Or.inl ⟨by rw [horig, hl], by rw [hname]; rfl⟩
              · exact ih3 x hx
        · by_cases hs : origin = "from-steam"
          · simp only [hl, if_neg, hs, if_pos rfl, if_false] at h
            cases hlink : r.itemLink with
            | none => simp [select_item_link, hlink] at h
            | some link =>
              simp only [select_item_link, hlink] at h
              cases hid : get_steam_link_steam_workshop_id link with
              | none => rw [hid] at h; cases h
              | some id =>
                rw [hid] at h
                cases hrec : parse_mod_rows rs with
                | error e => rw [hrec] at h; cases h
                | ok sl =>
                  obtain ⟨s', l'⟩ := sl
                  rw [hrec] at h
                  injection h with h
                  injection h with h1 h2
                  subst h1; subst h2
                  obtain ⟨ih1, ih2, ih3⟩ := ih s' l' hrec
                  refine ⟨?_, ?_, ?_⟩
                  · simp [localExpected, horig, hs, hl, List.filterMap_cons]
                    exact ih1
                  · simp [steamExpected, horig, hs, hname, hlink, hid, List.filterMap_cons]
                    exact ih2
                  · intro x hx
                    rcases List.mem_cons.mp hx with hx | hx
                    · subst hx
                      exact Or.inr ⟨by rw [horig, hs], link, id, hlink, hid⟩
                    · exact ih3 x hx
          · simp [hl, hs] at h

/-! ## Claim C3 -/

/-- C3: in every successful parse, each from-local mod row contributes
exactly one local-mod entry with its display name and each from-steam row
contributes exactly one Steam-mod entry with its display name and decoded
workshop id, in document order with duplicates preserved (the filterMap
forms); moreover every from-steam row indeed carries a link that decodes
to a workshop id. -/
theorem C3_mod_row_extraction (doc : Doc) (p : Preset)
    (h : Preset.from_str doc = .ok p) :
    p.local_mods = localExpected doc.modRows ∧
    p.steam_mods = steamExpected doc.modRows ∧
    ∀ r ∈ doc.modRows,
      (r.itemOrigin = some "from-local" ∧ r.itemName.isSome) ∨
      (r.itemOrigin = some "from-steam" ∧ ∃ link id,
        r.itemLink = some link ∧ get_steam_link_steam_workshop_id link = some id) := by
  obtain ⟨-, hm, -⟩ := from_str_ok_parts doc p h
  exact parse_mod_rows_ok doc.modRows p.steam_mods p.local_mods hm

def c3Doc : Doc :=
  ⟨some "preset", none, none, none,
    [⟨some "Alpha", none, some "from-local", "r1"⟩,
     ⟨some "Beta", some "https://steamcommunity.com/sharedfiles/filedetails/?id=77",
       some "from-steam", "r2"⟩,
     ⟨some "Alpha", none, some "from-local", "r3"⟩],
    [], "<html>c3</html>"⟩

/-- C3, witness: the theorem applied to a concrete document with two
from-local rows (a duplicate name among them) and one from-steam row. -/
theorem C3_mod_row_extraction_witness :
    (⟨Game.Arma, none, [⟨"Beta", 77⟩], [⟨"Alpha"⟩, ⟨"Alpha"⟩], []⟩ : Preset).local_mods
      = localExpected c3Doc.modRows ∧
    (⟨Game.Arma, none, [⟨"Beta", 77⟩], [⟨"Alpha"⟩, ⟨"Alpha"⟩], []⟩ : Preset).steam_mods
      = steamExpected c3Doc.modRows :=
  have h := C3_mod_row_extraction c3Doc
    ⟨Game.Arma, none, [⟨"Beta", 77⟩], [⟨"Alpha"⟩, ⟨"Alpha"⟩], []⟩ rfl
  ⟨h.1, h.2.1⟩

/-! ## Claim C8 -/

theorem parse_mod_rows_append (l1 l2 : List Row) :
    parse_mod_rows (l1 ++ l2) =
      match parse_mod_rows l1 with
      | .error e => .error e
      | .ok (s1, ll1) =>
        match parse_mod_rows l2 with
        | .error e => .error e
        | .ok (s2, ll2) => .ok (s1 ++ s2, ll1 ++ ll2) := by
  induction l1 with
  | nil =>
    cases h2 : parse_mod_rows l2 with
    | error e => simp [parse_mod_rows, h2]
    | ok sl => obtain ⟨s2, ll2⟩ := sl; simp [parse_mod_rows, h2]
  | cons r rs ih =>
    cases hname : select_item_name r with
    | error e => simp [parse_mod_rows, hname]
    | ok n =>
      cases horig : select_item_origin r with
      | error e => simp [parse_mod_rows, hname, horig]
      | ok origin =>
        by_cases hl : origin = "from-local"
        · subst hl
          cases hrs : parse_mod_rows rs with
          | error e => simp [parse_mod_rows, hname, horig, hrs, ih]
          | ok sl =>
            obtain ⟨s1, ll1⟩ := sl
            cases h2 : parse_mod_rows l2 with
            | error e => simp [parse_mod_rows, hname, horig, hrs, h2, ih]
            | ok sl2 =>
              obtain ⟨s2, ll2⟩ := sl2
              simp [parse_mod_rows, hname, horig, hrs, h2, ih]
        · by_cases hs : origin = "from-steam"
          · subst hs
            cases hlink : select_item_link r with
            | error e => simp [parse_mod_rows, hname, horig, hl, hlink]
            | ok link =>
              cases hid : get_steam_link_steam_workshop_id link with
              | none => simp [parse_mod_rows, hname, horig, hl, hlink, hid]
              | some id =>
                cases hrs : parse_mod_rows rs with
                | error e => simp [parse_mod_rows, hname, horig, hl, hlink, hid, hrs, ih]
                | ok sl =>
                  obtain ⟨s1, ll1⟩ := sl
                  cases h2 : parse_mod_rows l2 with
                  | error e =>
                    simp [parse_mod_rows, hname, horig, hl, hlink, hid, hrs, h2, ih]
                  | ok sl2 =>
                    obtain ⟨s2, ll2⟩ := sl2
                    simp [parse_mod_rows, hname, horig, hl, hlink, hid, hrs, h2, ih]
          · simp [parse_mod_rows, hname, horig, hl, hs]

/-- C8: a mod row reached by the loop (its predecessors parse cleanly, its
name cell present) with a missing origin span fails the whole parse with
the item-origin-selector error carrying the row's inner HTML; with an
origin value outside the two accepted classes it fails the whole parse
with the invalid-item-origin-value error carrying that value. -/
theorem C8_item_origin_errors (doc : Doc) (g : Game) (pre : List Row) (r : Row)
    (post : List Row) (n : String)
    (acc : List PresetSteamMod × List PresetLocalMod)
    (hsel : select_preset_type doc = .ok g)
    (hrows : doc.modRows = pre ++ r :: post)
    (hpre : parse_mod_rows pre = .ok acc)
    (hname : r.itemName = some n) :
    (r.itemOrigin = none →
      Preset.from_str doc = .error (.SelectorFailedItemOrigin r.innerHtml)) ∧
    (∀ v, r.itemOrigin = some v → v ≠ "from-local" → v ≠ "from-steam" →
      Preset.from_str doc = .error (.InvalidItemOriginValue v)) := by
  obtain ⟨s0, l0⟩ := acc
  have hfail : ∀ e : Error, parse_mod_rows (r :: post) = .error e →
      Preset.from_str doc = .error e := by
    intro e he
    have hall : parse_mod_rows doc.modRows = .error e := by
      rw [hrows, parse_mod_rows_append, hpre, he]
    unfold Preset.from_str
    rw [hsel, hall]
  constructor
  · intro horig
    apply hfail
    simp [parse_mod_rows, select_item_name, hname, select_item_origin, horig]
  · intro v horig hv1 hv2
    apply hfail
    simp [parse_mod_rows, select_item_name, hname, select_item_origin, horig, hv1, hv2]

def c8Doc : Doc :=
  ⟨some "preset", none, none, none,
    [⟨some "Gamma", none, none, "<td>Gamma</td>"⟩], [], "<html>c8</html>"⟩

/-- C8, witness: the theorem applied to a document whose single mod row has
a name cell but no origin span. -/
theorem C8_item_origin_errors_witness :
    Preset.from_str c8Doc = .error (.SelectorFailedItemOrigin "<td>Gamma</td>") :=
  (C8_item_origin_errors c8Doc Game.Arma [] ⟨some "Gamma", none, none, "<td>Gamma</td>"⟩
    [] "Gamma" ([], []) rfl rfl rfl rfl).1 rfl

/-! ## Helper lemmas: string joining -/

theorem joinAll_append (x y : List String) : joinAll (x ++ y) = joinAll x ++ joinAll y := by
  induction x with
  | nil => simp [joinAll, String.empty_append]
  | cons a x ih => simp [joinAll, ih, String.append_assoc]

/-! ## Claim C7 -/

/-- The lines of the claimed rendering, in the claimed order: the header
line naming the game (with the preset name appended when present), one
Steam line per Steam mod with the canonical workshop URL, one Local line
per local mod, one DLC line per DLC with the canonical store URL. -/
def claimRenderLines (p : Preset) : List String :=
  (match p.preset_name with
    | some n => p.game.display ++ " Preset: " ++ n
    | none => p.game.display ++ " Preset")
  :: (p.steam_mods.map (fun m =>
        "Steam: " ++ ("https://" ++ STEAM_WORKSHOP_LINK ++ Nat.repr m.id ++ ": " ++ m.display_name))
    ++ p.local_mods.map (fun m => "Local: " ++ m.display_name)
    ++ p.dlcs.map (fun m =>
        "DLC: " ++ ("https://" ++ STEAM_APP_LINK ++ Nat.repr m.id ++ ": " ++ m.display_name)))

/-- The claimed rendering: the lines above, each terminated by one newline. -/
def claimRender (p : Preset) : String :=
  joinAll ((claimRenderLines p).map fun line => line ++ "\n")

/-- C7: the Display rendering of a Preset is exactly the claimed text —
header line, Steam lines, Local lines, DLC lines, each section in original
sequence order.  Rendering is a pure function of the fields, so rendering
the same Preset twice trivially yields identical text. -/
theorem C7_render_format (p : Preset) : Preset.display p = claimRender p := by
  unfold Preset.display claimRender claimRenderLines
  cases hn : p.preset_name with
  | none =>
    simp [List.map_append, joinAll_append, joinAll, String.append_assoc,
      Function.comp_def, PresetSteamMod.display, PresetLocalMod.display, PresetDlc.display]
  | some n =>
    simp [List.map_append, joinAll_append, joinAll, String.append_assoc,
      Function.comp_def, PresetSteamMod.display, PresetLocalMod.display, PresetDlc.display]

/-! ## Claim C5 -/

/-- The three possible outcomes for an id-comparable category. -/
inductive CatOutcome where
  | noItems
  | sameItems
  | differing
deriving DecidableEq

/-- The category classification: both id sets empty, equal id sets, or
differing id sets. -/
def catOutcome (s1 s2 : Finset Nat) : CatOutcome :=
  if s1 = ∅ ∧ s2 = ∅ then .noItems
  else if s1 = s2 then .sameItems
  else .differing

/-- Modelled from the claim wording: a labeled list.  An empty list is
omitted entirely (no header, no blank line); a non-empty list is the
header line, one dashed line per item, then one blank line. -/
def claimListBlock (header : String) (items : List String) : String :=
  match items with
  | [] => ""
  | _ :: _ => header ++ "\n" ++ joinAll (items.map fun it => "- " ++ it ++ "\n") ++ "\n"

/-- Modelled from the claim wording: one id-comparable category section —
a single no-items line when both id sets are empty, a single same-items
line when the id sets are equal, otherwise the three labeled lists in the
fixed order only-in-1, only-in-2, in-both. -/
def claimCategorySection (noLine sameLine h1 h2 hBoth : String)
    (ids1 ids2 : Finset Nat) (only1 only2 both : List String) : String :=
  match catOutcome ids1 ids2 with
  | .noItems => noLine
  | .sameItems => sameLine
  | .differing =>
    claimListBlock h1 only1 ++ claimListBlock h2 only2 ++ claimListBlock hBoth both

/-- Modelled from the claim wording: the full report body — the Steam-mod
category section, the DLC category section, then one unconditional local
mods list per preset. -/
def claimReport (p1 : Preset) (n1 : String) (p2 : Preset) (n2 : String) : String :=
  claimCategorySection
    ("'" ++ n1 ++ "' and '" ++ n2 ++ "' have no Steam Mods\n\n")
    ("'" ++ n1 ++ "' and '" ++ n2 ++ "' have the same Steam Mods\n\n")
    ("Steam Mods only in '" ++ n1 ++ "'")
    ("Steam Mods only in '" ++ n2 ++ "'")
    ("Steam Mods in '" ++ n1 ++ "' and '" ++ n2 ++ "'")
    (steamIds p1) (steamIds p2)
    ((steamOnly1 p1 p2).map PresetSteamMod.display)
    ((steamOnly2 p1 p2).map PresetSteamMod.display)
    ((steamBoth p1 p2).map PresetSteamMod.display)
  ++ claimCategorySection
    ("'" ++ n1 ++ "' and '" ++ n2 ++ "' have no DLCs\n\n")
    ("'" ++ n1 ++ "' and '" ++ n2 ++ "' have the same DLCs\n\n")
    ("DLCs only in '" ++ n1 ++ "'")
    ("DLCs only in '" ++ n2 ++ "'")
    ("DLCs in '" ++ n1 ++ "' and '" ++ n2 ++ "'")
    (dlcIds p1) (dlcIds p2)
    ((dlcOnly1 p1 p2).map PresetDlc.display)
    ((dlcOnly2 p1 p2).map PresetDlc.display)
    ((dlcBoth p1 p2).map PresetDlc.display)
  ++ claimListBlock ("Local mods in '" ++ n1 ++ "'") (p1.local_mods.map PresetLocalMod.display)
  ++ claimListBlock ("Local mods in '" ++ n2 ++ "'") (p2.local_mods.map PresetLocalMod.display)

theorem fmt_list_foldl (header : String) (items : List String) (s : String) :
    items.foldl
      (fun (st : String × Bool) item =>
        ((if st.2 then st.1 else st.1 ++ header ++ "\n") ++ "- " ++ item ++ "\n", true))
      (s, true)
    = (s ++ joinAll (items.map fun it => "- " ++ it ++ "\n"), true) := by
  induction items generalizing s with
  | nil => simp [joinAll, String.append_empty]
  | cons a as ih =>
    simp only [List.foldl_cons, if_pos, List.map_cons, joinAll]
    rw [ih]
    simp [String.append_assoc]

theorem fmt_list_eq_claimListBlock (header : String) (items : List String) :
    fmt_list header items = claimListBlock header items := by
  cases items with
  | nil => rfl
  | cons a as =>
    show (let st := List.foldl _ ("", false) (a :: as); if st.2 then st.1 ++ "\n" else st.1) = _
    rw [List.foldl_cons]
    show (let st := List.foldl _ (("" ++ header ++ "\n") ++ "- " ++ a ++ "\n", true) as;
      if st.2 then st.1 ++ "\n" else st.1) = _
    rw [fmt_list_foldl]
    show ((("" ++ header ++ "\n") ++ "- " ++ a ++ "\n")
      ++ joinAll (as.map fun it => "- " ++ it ++ "\n")) ++ "\n" = _
    simp only [claimListBlock, List.map_cons, joinAll, String.empty_append,
      String.append_assoc]

theorem category_fmt_eq (ids1 ids2 : Finset Nat) (noLine sameLine h1s h2s hbs : String)
    (only1 only2 both : List String) :
    (if ids1 = ∅ ∧ ids2 = ∅ then noLine
     else if ids1 = ids2 then sameLine
     else fmt_list h1s only1 ++ fmt_list h2s only2 ++ fmt_list hbs both)
    = claimCategorySection noLine sameLine h1s h2s hbs ids1 ids2 only1 only2 both := by
  unfold claimCategorySection catOutcome
  by_cases h1 : ids1 = ∅ ∧ ids2 = ∅
  · simp [h1]
  · by_cases h2 : ids1 = ids2
    · subst h2
      have h3 : ¬ids1 = ∅ := fun h => h1 ⟨h, h⟩
      simp [h1, h3]
    · simp [h1, h2, fmt_list_eq_claimListBlock]

/-- C5: for same-game, non-identical presets the comparator report is
exactly the claim's structure: the Steam-mod category section (no-items
line / same-items line / the three labeled lists in fixed order, empty
lists omitted, non-empty lists followed by one blank line, the in-both
list rendered from preset 1's copies), then the DLC category section, then
one unconditional local-mods list per preset (header omitted when empty). -/
theorem C5_report_structure (p1 : Preset) (n1 : String) (p2 : Preset) (n2 : String)
    (hgame : p1.game = p2.game)
    (hne : ¬(p1.steam_mods = p2.steam_mods ∧ p1.local_mods = p2.local_mods
      ∧ p1.dlcs = p2.dlcs)) :
    PresetsCompare.fmt p1 n1 p2 n2 = claimReport p1 n1 p2 n2 := by
  unfold PresetsCompare.fmt claimReport
  rw [← category_fmt_eq, ← category_fmt_eq,
    ← fmt_list_eq_claimListBlock, ← fmt_list_eq_claimListBlock]

def c5P1 : Preset := ⟨Game.Arma, none, [⟨"M1", 1⟩], [⟨"L1"⟩], []⟩

def c5P2 : Preset := ⟨Game.Arma, none, [], [], []⟩

/-- C5, witness: the theorem applied to two concrete same-game,
non-identical presets. -/
theorem C5_report_structure_witness :
    PresetsCompare.fmt c5P1 "A" c5P2 "B" = claimReport c5P1 "A" c5P2 "B" :=
  C5_report_structure c5P1 "A" c5P2 "B" rfl (by decide)

/-! ## Claim C6 -/

/-- C6: the comparison driver emits exactly the single
not-same-game line when the games differ (and performs no category
comparison), the identical-contents line when all three sequences agree as
ordered lists, and the PresetsCompare report otherwise. -/
theorem C6_run_dispatch (p1 : Preset) (n1 : String) (p2 : Preset) (n2 : String) :
    (p1.game ≠ p2.game →
      compare_run_out p1 n1 p2 n2
        = "Presets '" ++ n1 ++ "' and '" ++ n2 ++ "' do not belong to the same game") ∧
    (p1.game = p2.game →
      p1.steam_mods = p2.steam_mods ∧ p1.local_mods = p2.local_mods ∧ p1.dlcs = p2.dlcs →
      compare_run_out p1 n1 p2 n2
        = "Presets '" ++ n1 ++ "' and '" ++ n2 ++ "' have identical contents") ∧
    (p1.game = p2.game →
      ¬(p1.steam_mods = p2.steam_mods ∧ p1.local_mods = p2.local_mods ∧ p1.dlcs = p2.dlcs) →
      compare_run_out p1 n1 p2 n2 = PresetsCompare.fmt p1 n1 p2 n2) := by
  refine ⟨fun h => ?_, fun h he => ?_, fun h hne => ?_⟩
  · simp [compare_run_out, h]
  · simp [compare_run_out, h, he]
  · simp [compare_run_out, h, hne]

def c6P1 : Preset := ⟨Game.Arma, none, [], [], []⟩

def c6P2 : Preset := ⟨Game.DayZ, none, [], [], []⟩

/-- C6, witness: the theorem applied to two concrete presets of different
games. -/
theorem C6_run_dispatch_witness :
    compare_run_out c6P1 "A" c6P2 "B"
      = "Presets '" ++ "A" ++ "' and '" ++ "B" ++ "' do not belong to the same game" :=
  (C6_run_dispatch c6P1 "A" c6P2 "B").1 (by decide)

/-! ## Claim C9 -/

theorem catOutcome_comm (s1 s2 : Finset Nat) : catOutcome s1 s2 = catOutcome s2 s1 := by
  unfold catOutcome
  by_cases h1 : s1 = ∅ ∧ s2 = ∅
  · simp [h1.1, h1.2]
  · have h1' : ¬(s2 = ∅ ∧ s1 = ∅) := fun h => h1 ⟨h.2, h.1⟩
    by_cases h2 : s1 = s2
    · subst h2
      simp
    · have h2' : ¬s2 = s1 := fun h => h2 h.symm
      simp [h1, h1', h2, h2']

theorem steamBoth_ids (p1 p2 : Preset) :
    ((steamBoth p1 p2).map PresetSteamMod.id).toFinset = steamIds p1 ∩ steamIds p2 := by
  ext a
  simp only [steamBoth, steamIds, List.mem_toFinset, List.mem_map, List.mem_filter,
    decide_eq_true_eq, Finset.mem_inter]
  constructor
  · rintro ⟨m, ⟨hm, hmem⟩, rfl⟩
    exact ⟨⟨m, hm, rfl⟩, hmem⟩
  · rintro ⟨⟨m, hm, rfl⟩, hmem⟩
    exact ⟨m, ⟨hm, hmem⟩, rfl⟩

theorem dlcBoth_ids (p1 p2 : Preset) :
    ((dlcBoth p1 p2).map PresetDlc.id).toFinset = dlcIds p1 ∩ dlcIds p2 := by
  ext a
  simp only [dlcBoth, dlcIds, List.mem_toFinset, List.mem_map, List.mem_filter,
    decide_eq_true_eq, Finset.mem_inter]
  constructor
  · rintro ⟨m, ⟨hm, hmem⟩, rfl⟩
    exact ⟨⟨m, hm, rfl⟩, hmem⟩
  · rintro ⟨⟨m, hm, rfl⟩, hmem⟩
    exact ⟨m, ⟨hm, hmem⟩, rfl⟩

/-- C9: swapping the two presets (labels swapped accordingly) leaves the
per-category classification unchanged: the category outcome is the same in
both runs, the id set flagged in-both is identical in both runs, and each
only-in list appears on the swapped side (indeed as the very same item
list). -/
theorem C9_comparator_symmetry (p1 p2 : Preset) (hgame : p1.game = p2.game) :
    catOutcome (steamIds p1) (steamIds p2) = catOutcome (steamIds p2) (steamIds p1) ∧
    ((steamBoth p1 p2).map PresetSteamMod.id).toFinset
      = ((steamBoth p2 p1).map PresetSteamMod.id).toFinset ∧
    steamOnly1 p1 p2 = steamOnly2 p2 p1 ∧
    steamOnly2 p1 p2 = steamOnly1 p2 p1 ∧
    catOutcome (dlcIds p1) (dlcIds p2) = catOutcome (dlcIds p2) (dlcIds p1) ∧
    ((dlcBoth p1 p2).map PresetDlc.id).toFinset
      = ((dlcBoth p2 p1).map PresetDlc.id).toFinset ∧
    dlcOnly1 p1 p2 = dlcOnly2 p2 p1 ∧
    dlcOnly2 p1 p2 = dlcOnly1 p2 p1 := by
  refine ⟨catOutcome_comm _ _, ?_, rfl, rfl, catOutcome_comm _ _, ?_, rfl, rfl⟩
  · rw [steamBoth_ids, steamBoth_ids, Finset.inter_comm]
  · rw [dlcBoth_ids, dlcBoth_ids, Finset.inter_comm]

def c9P1 : Preset := ⟨Game.Arma, none, [⟨"X", 1⟩], [], []⟩

def c9P2 : Preset := ⟨Game.Arma, none, [⟨"Y", 2⟩], [], []⟩

/-- C9, witness: the theorem applied to two concrete same-game presets with
differing Steam-mod id sets. -/
theorem C9_comparator_symmetry_witness :
    catOutcome (steamIds c9P1) (steamIds c9P2) = catOutcome (steamIds c9P2) (steamIds c9P1) :=
  (C9_comparator_symmetry c9P1 c9P2 rfl).1

end A3
